import Mathlib

/-!
Verification of the Silver transformation pipeline's metadata UI
(src/silver/silver_streamlit/streamlit_app.py) against its specification.

The stateful SQL store is embedded as explicit Lean lists of records; each
UI handler's SQL statements become pure functions on those lists, translated
directly from the Python/SQL source.
-/

/-- A row of the `field_mappings` table (see the SELECT at lines 874-881 of
streamlit_app.py for the column list). Timestamps are abstract `Nat` ticks. -/
structure FieldMapping where
  mapping_id : Nat
  source_table : String
  source_field : String
  target_table : String
  target_column : String
  mapping_method : String
  confidence_score : ℚ
  approved : Bool
  approved_by : Option String
  approved_timestamp : Option Nat
  transformation_logic : Option String
  description : Option String
  created_timestamp : Nat
  updated_timestamp : Nat
  tpa : Option String
deriving DecidableEq

/-- ORDER BY `target_column` used by the Test Mappings query. -/
def mappingByTargetColumn (a b : FieldMapping) : Prop :=
  a.target_column ≤ b.target_column

instance : DecidableRel mappingByTargetColumn := fun a b =>
  inferInstanceAs (Decidable (a.target_column ≤ b.target_column))

/-- The Test Mappings tab query (streamlit_app.py lines 1605-1611):
`SELECT ... FROM field_mappings WHERE target_table = t AND approved = TRUE
ORDER BY target_column`. -/
def testMappingsQuery (store : List FieldMapping) (t : String) : List FieldMapping :=
  List.insertionSort mappingByTargetColumn
    (store.filter (fun m => decide (m.target_table = t) && m.approved))

/-- The per-mapping SELECT clause built by the Test Mappings tab
(streamlit_app.py lines 1637-1649): if the mapping has a non-blank
transformation it is used verbatim, else a direct `RAW_DATA:field::VARCHAR`
projection. -/
def selectClause (m : FieldMapping) : String :=
  match m.transformation_logic with
  | some tr =>
      if tr.trim ≠ "" then tr ++ " AS " ++ m.target_column
      else "RAW_DATA:" ++ m.source_field ++ "::VARCHAR AS " ++ m.target_column
  | none => "RAW_DATA:" ++ m.source_field ++ "::VARCHAR AS " ++ m.target_column

/-- The full list of SELECT clauses of the Test Mappings preview query
(streamlit_app.py lines 1636-1658). -/
def testMappingsSelectClauses (store : List FieldMapping) (t : String) : List String :=
  (testMappingsQuery store t).map selectClause

/-- Modelled from the spec: the Transformation Engine's MAP step
(the `transform_bronze_to_silver` stored-procedure body is not part of the
repository snapshot; spec §4.3 MAP: "for each row, for each approved mapping
targeting this target table, extract the source field's value and either cast
it directly ... or evaluate the mapping's transformation expression if
present"). Expression evaluation is abstracted as a caller-supplied
evaluator `evalExpr`. -/
def transformMapRow (store : List FieldMapping) (t : String)
    (evalExpr : String → (String → Option String) → Option String)
    (row : String → Option String) : List (String × Option String) :=
  (store.filter (fun m => decide (m.target_table = t) && m.approved)).map
    (fun m => (m.target_column,
      match m.transformation_logic with
      | some tr => evalExpr tr row
      | none => row m.source_field))

/-- Splitting a conjunctive filter: filtering on `p && q` is filtering the
`q`-filtered list on `p`. -/
theorem filter_and_eq_filter_filter {α : Type} (p q : α → Bool) (l : List α) :
    l.filter (fun a => p a && q a) = (l.filter q).filter p :=
  (List.filter_filter q l).symm

/-- C1: A field mapping with approved = false never influences the mapped
output: both the Test Mappings preview (query + select-clause build) and the
Transformation Engine's MAP step depend only on the approved part of the
mapping store, so two stores that agree on their approved mappings produce
identical mapped output for every target table, evaluator and source row. -/
theorem approved_only_mappings_influence_output
    (s₁ s₂ : List FieldMapping)
    (h : s₁.filter (fun m => m.approved) = s₂.filter (fun m => m.approved)) :
    (∀ t, testMappingsSelectClauses s₁ t = testMappingsSelectClauses s₂ t) ∧
    (∀ t evalExpr row,
      transformMapRow s₁ t evalExpr row = transformMapRow s₂ t evalExpr row) := by
  have key : ∀ t, s₁.filter (fun m => decide (m.target_table = t) && m.approved)
      = s₂.filter (fun m => decide (m.target_table = t) && m.approved) := by
    intro t
    rw [filter_and_eq_filter_filter (fun m => decide (m.target_table = t))
      (fun m => m.approved) s₁,
      filter_and_eq_filter_filter (fun m => decide (m.target_table = t))
      (fun m => m.approved) s₂, h]
  constructor
  · intro t
    unfold testMappingsSelectClauses testMappingsQuery
    rw [key t]
  · intro t evalExpr row
    unfold transformMapRow
    rw [key t]

/-- An approved mapping used by the C1 witness. -/
def mappingApprovedEx : FieldMapping :=
  { mapping_id := 1, source_table := "RAW_DATA_TABLE", source_field := "CUST_ID",
    target_table := "CUSTOMER", target_column := "ID", mapping_method := "MANUAL",
    confidence_score := 1, approved := true, approved_by := some "ALICE",
    approved_timestamp := some 10, transformation_logic := none,
    description := none, created_timestamp := 5, updated_timestamp := 5,
    tpa := none }

/-- An unapproved mapping used by the C1 witness. -/
def mappingPendingEx : FieldMapping :=
  { mapping_id := 2, source_table := "RAW_DATA_TABLE", source_field := "CUST_NM",
    target_table := "CUSTOMER", target_column := "NAME",
    mapping_method := "ML_PATTERN", confidence_score := 7/10, approved := false,
    approved_by := none, approved_timestamp := none,
    transformation_logic := some "UPPER(CUST_NM)", description := none,
    created_timestamp := 6, updated_timestamp := 6, tpa := none }

/-- C1 witness: a store with an extra unapproved mapping yields the same
preview clauses as the store without it. -/
theorem approved_only_mappings_influence_output_witness :
    testMappingsSelectClauses [mappingApprovedEx, mappingPendingEx] "CUSTOMER"
      = testMappingsSelectClauses [mappingApprovedEx] "CUSTOMER" :=
  (approved_only_mappings_influence_output
    [mappingApprovedEx, mappingPendingEx] [mappingApprovedEx] (by decide)).1
    "CUSTOMER"

/-- The manual mapping form submit handler (streamlit_app.py lines 1113-1142):
if any required field is blank the insert is refused; otherwise a row is
inserted with the literal values `mapping_method = 'MANUAL'`,
`confidence_score = 1.0`, `approved = TRUE`, names upper-cased and
single-quote-escaped, and blank transformation/description stored as NULL.
`newId`/`now` stand for the store-assigned id and CURRENT_TIMESTAMP. -/
def manualMappingSubmit (source_field source_table target_table target_column
    transformation description : String) (newId now : Nat) :
    Option FieldMapping :=
  if source_field = "" ∨ target_table = "" ∨ target_column = "" then none
  else some
    { mapping_id := newId
      source_table := source_table.toUpper.replace "'" "''"
      source_field := source_field.toUpper.replace "'" "''"
      target_table := target_table.toUpper.replace "'" "''"
      target_column := target_column.toUpper.replace "'" "''"
      mapping_method := "MANUAL"
      confidence_score := 1
      approved := true
      approved_by := none
      approved_timestamp := none
      transformation_logic :=
        if transformation = "" then none
        else some (transformation.replace "'" "''")
      description :=
        if description = "" then none else some (description.replace "'" "''")
      created_timestamp := now
      updated_timestamp := now
      tpa := none }

/-- C2: every mapping created through the manual entry path is stored with
mapping_method = MANUAL, confidence score exactly 1.0 and approved = true. -/
theorem manual_mapping_invariant (sf stbl tt tc tr ds : String) (newId now : Nat)
    (hsf : sf ≠ "") (htt : tt ≠ "") (htc : tc ≠ "") :
    ∃ m, manualMappingSubmit sf stbl tt tc tr ds newId now = some m ∧
      m.mapping_method = "MANUAL" ∧ m.confidence_score = 1 ∧ m.approved = true := by
  unfold manualMappingSubmit
  rw [if_neg (by simp [hsf, htt, htc])]
  exact ⟨_, rfl, rfl, rfl, rfl⟩

/-- C2 witness: the theorem evaluated at a concrete manual mapping entry. -/
theorem manual_mapping_invariant_witness :
    ∃ m, manualMappingSubmit "cust_id" "RAW_DATA_TABLE" "CUSTOMER" "ID" "" ""
        7 42 = some m ∧
      m.mapping_method = "MANUAL" ∧ m.confidence_score = 1 ∧ m.approved = true :=
  manual_mapping_invariant "cust_id" "RAW_DATA_TABLE" "CUSTOMER" "ID" "" "" 7 42
    (by decide) (by decide) (by decide)

/-- The manual-mapping INSERT as a store operation: a plain append, with no
uniqueness probe anywhere on the path (lines 1121-1140 issue the INSERT
directly after the blank-field check). -/
def insertFieldMapping (store : List FieldMapping) (m : FieldMapping) :
    List FieldMapping :=
  store ++ [m]

/-- The four-column key used by the View Mappings duplicate check
(`duplicated(subset=['SOURCE_TABLE','SOURCE_FIELD','TARGET_TABLE','TARGET_COLUMN'])`,
line 888). -/
def mappingKey (m : FieldMapping) : String × String × String × String :=
  (m.source_table, m.source_field, m.target_table, m.target_column)

/-- The IS_DUPLICATE column computed at read time (streamlit_app.py line 888):
pandas `duplicated(subset, keep=False)` marks a row iff its key occurs more
than once in the whole frame. -/
def isDuplicateFlags (store : List FieldMapping) : List Bool :=
  store.map (fun m =>
    decide (2 ≤ store.countP (fun x => decide (mappingKey x = mappingKey m))))

/-- Positional lookup, through `map`, of a distinguished element of a list. -/
theorem getD_map_append_cons {α β : Type} (f : α → β) (s : List α) (a : α)
    (t : List α) (d : β) :
    ((s ++ a :: t).map f).getD s.length d = f a := by
  induction s with
  | nil => rfl
  | cons b s ih => simpa using ih

/-- C3: inserting a duplicate (source field, target column) pair is never
blocked — the insert path appends unconditionally, keeping every prior row —
and at read time a row is flagged IS_DUPLICATE exactly when some other row
of the store shares its four-column key (so every member of a duplicate
group is flagged). -/
theorem duplicate_mappings_flagged_not_blocked :
    (∀ (store : List FieldMapping) (m : FieldMapping),
      List.Sublist store (insertFieldMapping store m) ∧
        m ∈ insertFieldMapping store m) ∧
    (∀ (s t : List FieldMapping) (m : FieldMapping),
      (isDuplicateFlags (s ++ m :: t)).getD s.length false = true ↔
        ∃ m', (m' ∈ s ∨ m' ∈ t) ∧ mappingKey m' = mappingKey m) := by
  constructor
  · intro store m
    exact ⟨List.sublist_append_left store [m], by simp [insertFieldMapping]⟩
  · intro s t m
    have hlen : (isDuplicateFlags (s ++ m :: t)).getD s.length false
        = decide (2 ≤ (s ++ m :: t).countP
            (fun x => decide (mappingKey x = mappingKey m))) := by
      unfold isDuplicateFlags
      exact getD_map_append_cons _ s m t false
    rw [hlen]
    set p : FieldMapping → Bool := fun x => decide (mappingKey x = mappingKey m)
      with hp
    have hpm : p m = true := by simp [hp]
    have hcount : (s ++ m :: t).countP p = s.countP p + t.countP p + 1 := by
      rw [List.countP_append, List.countP_cons, hpm]
      simp
      omega
    rw [hcount]
    constructor
    · intro h
      have h2 : 2 ≤ s.countP p + t.countP p + 1 := of_decide_eq_true h
      rcases Nat.lt_or_ge 0 (s.countP p) with hs | hs
      · rcases List.countP_pos_iff.mp hs with ⟨a, ha, hpa⟩
        exact ⟨a, Or.inl ha, of_decide_eq_true hpa⟩
      · have ht : 0 < t.countP p := by omega
        rcases List.countP_pos_iff.mp ht with ⟨a, ha, hpa⟩
        exact ⟨a, Or.inr ha, of_decide_eq_true hpa⟩
    · rintro ⟨m', hm', hkey⟩
      have hpos : 0 < s.countP p + t.countP p := by
        rcases hm' with hm' | hm'
        · have hs : 0 < s.countP p :=
            List.countP_pos_iff.mpr ⟨m', hm', decide_eq_true hkey⟩
          omega
        · have ht : 0 < t.countP p :=
            List.countP_pos_iff.mpr ⟨m', hm', decide_eq_true hkey⟩
          omega
      exact decide_eq_true (by omega)

/-- A row of the `transformation_rules` table (column list as in the SELECT
at streamlit_app.py lines 1942-1948). -/
structure TransformationRule where
  rule_id : String
  rule_name : String
  rule_type : String
  target_table : Option String
  target_column : Option String
  rule_logic : String
  priority : Int
  error_action : String
  active : Bool
  created_timestamp : Nat
  description : Option String
deriving DecidableEq

/-- `ORDER BY priority, created_timestamp DESC` (streamlit_app.py line 1947):
lower priority first; within equal priority, larger (later) creation
timestamp first. -/
def ruleDisplayLE (a b : TransformationRule) : Prop :=
  a.priority < b.priority ∨
    (a.priority = b.priority ∧ b.created_timestamp ≤ a.created_timestamp)

instance : DecidableRel ruleDisplayLE := fun a b =>
  inferInstanceAs (Decidable (a.priority < b.priority ∨
    (a.priority = b.priority ∧ b.created_timestamp ≤ a.created_timestamp)))

instance : IsTotal TransformationRule ruleDisplayLE :=
  ⟨by
    intro a b
    unfold ruleDisplayLE
    rcases lt_trichotomy a.priority b.priority with h | h | h
    · exact Or.inl (Or.inl h)
    · rcases Nat.le_total b.created_timestamp a.created_timestamp with h2 | h2
      · exact Or.inl (Or.inr ⟨h, h2⟩)
      · exact Or.inr (Or.inr ⟨h.symm, h2⟩)
    · exact Or.inr (Or.inl h)⟩

instance : IsTrans TransformationRule ruleDisplayLE :=
  ⟨by
    intro a b c hab hbc
    unfold ruleDisplayLE at *
    rcases hab with hab | ⟨hab1, hab2⟩
    · rcases hbc with hbc | ⟨hbc1, hbc2⟩
      · exact Or.inl (hab.trans hbc)
      · exact Or.inl (hbc1 ▸ hab)
    · rcases hbc with hbc | ⟨hbc1, hbc2⟩
      · exact Or.inl (hab1 ▸ hbc)
      · exact Or.inr ⟨hab1.trans hbc1, hbc2.trans hab2⟩⟩

/-- `ORDER BY priority` alone (streamlit_app.py line 2385). -/
def ruleTestLE (a b : TransformationRule) : Prop := a.priority ≤ b.priority

instance : DecidableRel ruleTestLE := fun a b =>
  inferInstanceAs (Decidable (a.priority ≤ b.priority))

instance : IsTotal TransformationRule ruleTestLE :=
  ⟨fun a b => Int.le_total a.priority b.priority⟩

instance : IsTrans TransformationRule ruleTestLE :=
  ⟨fun _ _ _ hab hbc => Int.le_trans hab hbc⟩

/-- The WHERE clause of the All Transformation Rules query (streamlit_app.py
lines 1930-1940): optional filters on rule type, target table and the active
flag; an absent filter imposes no condition. -/
def rulesWhere (ftype ftable : Option String) (factive : Option Bool)
    (r : TransformationRule) : Bool :=
  (match ftype with
   | some ty => decide (r.rule_type = ty)
   | none => true) &&
  (match ftable with
   | some tb => decide (r.target_table = some tb)
   | none => true) &&
  (match factive with
   | some b => r.active == b
   | none => true)

/-- The All Transformation Rules query (streamlit_app.py lines 1942-1948):
`SELECT ... FROM transformation_rules WHERE ... ORDER BY priority,
created_timestamp DESC`. -/
def allRulesQuery (rules : List TransformationRule)
    (ftype ftable : Option String) (factive : Option Bool) :
    List TransformationRule :=
  List.insertionSort ruleDisplayLE (rules.filter (rulesWhere ftype ftable factive))

/-- The Test Rules tab rule-fetch query (streamlit_app.py lines 2380-2386):
`WHERE (target_table = t OR target_table IS NULL) AND active = TRUE
ORDER BY priority`. -/
def testRulesQuery (rules : List TransformationRule) (t : String) :
    List TransformationRule :=
  List.insertionSort ruleTestLE
    (rules.filter (fun r =>
      (decide (r.target_table = some t) || decide (r.target_table = none))
        && r.active))

/-- The ordering asserted by the claim: priority ascending with equal-priority
ties broken by creation timestamp ASCENDING (earlier-created first). -/
def claimRuleLE (a b : TransformationRule) : Prop :=
  a.priority < b.priority ∨
    (a.priority = b.priority ∧ a.created_timestamp ≤ b.created_timestamp)

instance : DecidableRel claimRuleLE := fun a b =>
  inferInstanceAs (Decidable (a.priority < b.priority ∨
    (a.priority = b.priority ∧ a.created_timestamp ≤ b.created_timestamp)))

/-- A rule created at tick 1 with priority 5, for the C4 counterexample. -/
def ruleEarlyEx : TransformationRule :=
  { rule_id := "DQ1", rule_name := "early", rule_type := "DATA_QUALITY",
    target_table := some "CUSTOMER", target_column := some "ID",
    rule_logic := "ID IS NOT NULL", priority := 5, error_action := "REJECT",
    active := true, created_timestamp := 1, description := none }

/-- A rule created at tick 2 with the same priority 5, for the C4
counterexample. -/
def ruleLateEx : TransformationRule :=
  { rule_id := "DQ2", rule_name := "late", rule_type := "DATA_QUALITY",
    target_table := some "CUSTOMER", target_column := some "NAME",
    rule_logic := "NAME IS NOT NULL", priority := 5, error_action := "LOG",
    active := true, created_timestamp := 2, description := none }

/-- C4 counterexample: on two equal-priority rules the All Transformation
Rules query puts the LATER-created rule first (`created_timestamp DESC`),
so its output is not sorted by creation timestamp ascending as the claim
states. -/
theorem rule_order_claim_counterexample :
    allRulesQuery [ruleEarlyEx, ruleLateEx] none none none
        = [ruleLateEx, ruleEarlyEx] ∧
      ruleEarlyEx.priority = ruleLateEx.priority ∧
      ruleEarlyEx.created_timestamp < ruleLateEx.created_timestamp ∧
      ¬ (allRulesQuery [ruleEarlyEx, ruleLateEx] none none none).Sorted
          claimRuleLE := by
  refine ⟨by decide, by decide, by decide, by decide⟩

/-- C4 amended: rules are presented by the All Transformation Rules query in
priority-ascending order with equal-priority ties broken by creation
timestamp DESCENDING (later-created first), and the Test Rules fetch orders
by priority ascending alone. -/
theorem rule_order_amended (rules : List TransformationRule)
    (ftype ftable : Option String) (factive : Option Bool) (t : String) :
    (allRulesQuery rules ftype ftable factive).Sorted ruleDisplayLE ∧
      (testRulesQuery rules t).Sorted ruleTestLE :=
  ⟨List.sorted_insertionSort ruleDisplayLE _,
    List.sorted_insertionSort ruleTestLE _⟩

/-- The SQL-value normalization applied to the editable text fields before
the mappings-editor UPDATE (streamlit_app.py lines 976-987): a value that is
absent, blank after strip, or the pandas string 'nan' becomes NULL; anything
else has single quotes escaped. -/
def normSqlText (o : Option String) : Option String :=
  match o with
  | some s => if s.trim ≠ "" ∧ s ≠ "nan" then some (s.replace "'" "''") else none
  | none => none

/-- The mappings-editor save handler for one edited row (streamlit_app.py
lines 959-1037): change detection on APPROVED / TRANSFORMATION_LOGIC /
DESCRIPTION, then one of the three UPDATE branches — approve (sets
approved_by and approved_timestamp), un-approve (clears both to NULL), or
text-only update (leaves the approval fields untouched). When nothing
changed, no UPDATE is issued. -/
def mappingEditUpdate (orig : FieldMapping) (newApproved : Bool)
    (newTransformation newDescription : Option String) (user : String)
    (now : Nat) : FieldMapping :=
  let approvedChanged := newApproved ≠ orig.approved
  let transformationChanged := newTransformation ≠ orig.transformation_logic
  let descriptionChanged := newDescription ≠ orig.description
  if approvedChanged ∨ transformationChanged ∨ descriptionChanged then
    if approvedChanged ∧ newApproved = true then
      { orig with
          transformation_logic := normSqlText newTransformation
          description := normSqlText newDescription
          approved := true
          approved_by := some user
          approved_timestamp := some now
          updated_timestamp := now }
    else if approvedChanged ∧ newApproved = false then
      { orig with
          transformation_logic := normSqlText newTransformation
          description := normSqlText newDescription
          approved := false
          approved_by := none
          approved_timestamp := none
          updated_timestamp := now }
    else
      { orig with
          transformation_logic := normSqlText newTransformation
          description := normSqlText newDescription
          updated_timestamp := now }
  else orig

/-- C5: an approval transition (false → true) sets approved_by to the acting
user and approved_timestamp to the current time; an un-approval transition
(true → false) clears both to NULL; and when the approved flag does not
change (only transformation or description may change), the three approval
fields are left exactly as they were. -/
theorem approval_transition_fields (orig : FieldMapping) (newApproved : Bool)
    (newTransformation newDescription : Option String) (user : String)
    (now : Nat) :
    (orig.approved = false → newApproved = true →
      ((mappingEditUpdate orig newApproved newTransformation newDescription
          user now).approved = true ∧
        (mappingEditUpdate orig newApproved newTransformation newDescription
          user now).approved_by = some user ∧
        (mappingEditUpdate orig newApproved newTransformation newDescription
          user now).approved_timestamp = some now)) ∧
    (orig.approved = true → newApproved = false →
      ((mappingEditUpdate orig newApproved newTransformation newDescription
          user now).approved = false ∧
        (mappingEditUpdate orig newApproved newTransformation newDescription
          user now).approved_by = none ∧
        (mappingEditUpdate orig newApproved newTransformation newDescription
          user now).approved_timestamp = none)) ∧
    (newApproved = orig.approved →
      ((mappingEditUpdate orig newApproved newTransformation newDescription
          user now).approved = orig.approved ∧
        (mappingEditUpdate orig newApproved newTransformation newDescription
          user now).approved_by = orig.approved_by ∧
        (mappingEditUpdate orig newApproved newTransformation newDescription
          user now).approved_timestamp = orig.approved_timestamp)) := by
  refine ⟨?_, ?_, ?_⟩
  · intro ho hn
    have hc : newApproved ≠ orig.approved := by rw [ho, hn]; decide
    simp [mappingEditUpdate, hc, hn, ho]
  · intro ho hn
    have hc : newApproved ≠ orig.approved := by rw [ho, hn]; decide
    simp [mappingEditUpdate, hc, hn, ho]
  · intro hsame
    have hc : ¬ (newApproved ≠ orig.approved) := by simp [hsame]
    by_cases ht : newTransformation ≠ orig.transformation_logic
    · simp [mappingEditUpdate, hc, ht]
    · by_cases hd : newDescription ≠ orig.description
      · simp [mappingEditUpdate, hc, ht, hd]
      · simp [mappingEditUpdate, hc, ht, hd]

/-- C5 witness: approving the pending example mapping stamps the acting user
and approval time. -/
theorem approval_transition_fields_witness :
    (mappingEditUpdate mappingPendingEx true (some "UPPER(CUST_NM)") none
        "ALICE" 99).approved = true ∧
      (mappingEditUpdate mappingPendingEx true (some "UPPER(CUST_NM)") none
        "ALICE" 99).approved_by = some "ALICE" ∧
      (mappingEditUpdate mappingPendingEx true (some "UPPER(CUST_NM)") none
        "ALICE" 99).approved_timestamp = some 99 :=
  (approval_transition_fields mappingPendingEx true (some "UPPER(CUST_NM)")
    none "ALICE" 99).1 rfl rfl

/-- A row of the `target_schemas` table (column list as in the SELECT at
streamlit_app.py lines 644-651 plus the audit fields). -/
structure SchemaRow where
  schema_id : Nat
  table_name : String
  column_name : String
  data_type : String
  nullable : Bool
  default_value : Option String
  description : Option String
  active : Bool
  created_timestamp : Nat
  updated_timestamp : Nat
deriving DecidableEq

/-- The Target Table Designer column-delete handler (streamlit_app.py lines
710-719): `UPDATE target_schemas SET active = FALSE, updated_timestamp =
CURRENT_TIMESTAMP() WHERE schema_id = id` — a soft delete of one column. -/
def softDeleteColumn (db : List SchemaRow) (sid : Nat) (now : Nat) :
    List SchemaRow :=
  db.map (fun r =>
    if r.schema_id = sid then { r with active := false, updated_timestamp := now }
    else r)

/-- C6: the column delete removes no row and touches no other field — the
store keeps the same length and the same schema_ids in order, every
non-matching row is returned verbatim, and the matching rows keep their
table name, column name, data type, default, description, nullable flag and
creation timestamp, changing only active (to false) and updated_timestamp. -/
theorem soft_delete_is_frame_preserving (db : List SchemaRow) (sid now : Nat) :
    (softDeleteColumn db sid now).length = db.length ∧
      (softDeleteColumn db sid now).map (fun r => r.schema_id)
        = db.map (fun r => r.schema_id) ∧
      List.Forall₂ (fun r r' =>
        r'.table_name = r.table_name ∧ r'.column_name = r.column_name ∧
        r'.data_type = r.data_type ∧ r'.default_value = r.default_value ∧
        r'.description = r.description ∧ r'.nullable = r.nullable ∧
        r'.created_timestamp = r.created_timestamp ∧
        (r.schema_id ≠ sid → r' = r) ∧
        (r.schema_id = sid → r'.active = false ∧ r'.updated_timestamp = now))
        db (softDeleteColumn db sid now) := by
  refine ⟨by simp [softDeleteColumn], ?_, ?_⟩
  · unfold softDeleteColumn
    rw [List.map_map]
    apply List.map_congr_left
    intro r _
    by_cases h : r.schema_id = sid <;> simp [h]
  · unfold softDeleteColumn
    rw [List.forall₂_map_right_iff]
    rw [List.forall₂_same]
    intro r _
    by_cases h : r.schema_id = sid <;> simp [h]

/-- Character-list version of "n begins h": the Python substring test
anchored at one position. -/
def startsWith : List Char → List Char → Bool
  | [], _ => true
  | _ :: _, [] => false
  | a :: as, b :: bs => decide (a = b) && startsWith as bs

/-- Python's `needle in hay` on strings: some anchor position of `hay`
begins with `needle`. -/
def pyIn (needle hay : List Char) : Bool :=
  (List.range (hay.length + 1)).any (fun i => startsWith needle (hay.drop i))

/-- The save-handler classification of a `sync_table_with_metadata` outcome
(streamlit_app.py line 791): success iff the result contains "Successfully"
or contains "Recreated"; anything else is the warning path. -/
def syncSaveClassify (result : List Char) : Bool :=
  pyIn "Successfully".data result || pyIn "Recreated".data result

/-- `startsWith` decides "is an initial segment of". -/
theorem startsWith_iff (n h : List Char) :
    startsWith n h = true ↔ ∃ t, n ++ t = h := by
  induction n generalizing h with
  | nil => simp [startsWith]
  | cons a as ih =>
      cases h with
      | nil =>
          simp [startsWith]
      | cons b bs =>
          rw [startsWith]
          simp only [Bool.and_eq_true, decide_eq_true_eq, ih bs]
          constructor
          · rintro ⟨rfl, t, rfl⟩
            exact ⟨t, rfl⟩
          · rintro ⟨t, ht⟩
            injection ht with h1 h2
            exact ⟨h1, t, h2⟩

/-- `pyIn` decides substring containment. -/
theorem pyIn_iff (n h : List Char) :
    pyIn n h = true ↔ ∃ s t, s ++ n ++ t = h := by
  unfold pyIn
  rw [List.any_eq_true]
  constructor
  · rintro ⟨i, _, hi⟩
    rcases (startsWith_iff n (h.drop i)).mp hi with ⟨t, ht⟩
    refine ⟨h.take i, t, ?_⟩
    rw [List.append_assoc, ht, List.take_append_drop]
  · rintro ⟨s, t, hst⟩
    refine ⟨s.length, List.mem_range.mpr ?_, ?_⟩
    · have : h.length = s.length + (n.length + t.length) := by
        rw [← hst]; simp [Nat.add_assoc]
      omega
    · apply (startsWith_iff n (h.drop s.length)).mpr
      refine ⟨t, ?_⟩
      rw [← hst, List.append_assoc, List.drop_left]

/-- C7: the schema-sync caller classifies the outcome as success iff the
returned string contains the substring "Successfully" or the substring
"Recreated"; every other string takes the warning branch. -/
theorem sync_outcome_classification (result : List Char) :
    syncSaveClassify result = true ↔
      ((∃ s t, s ++ "Successfully".data ++ t = result) ∨
        (∃ s t, s ++ "Recreated".data ++ t = result)) := by
  unfold syncSaveClassify
  rw [Bool.or_eq_true, pyIn_iff, pyIn_iff]

/-- The result of one stored-procedure call as seen by `execute_procedure`:
either an exception with its message, or the collected rows, each a list of
column values (already rendered to strings as `str(...)` does). -/
def executeProcedure : Except String (List (List String)) → String
  | Except.error e => "Error: " ++ e
  | Except.ok [] => "Procedure executed successfully"
  | Except.ok ([] :: _) => "Error: list index out of range"
  | Except.ok ((v :: _) :: _) => v

/-- C8: every invocation of execute_procedure returns a definitive outcome
string and never propagates an exception: the first value of the first row
when rows come back, the fixed success message when no rows come back, and
"Error: " followed by the exception message when the call raises. -/
theorem execute_procedure_total_outcomes :
    (∀ e, executeProcedure (Except.error e) = "Error: " ++ e) ∧
      executeProcedure (Except.ok []) = "Procedure executed successfully" ∧
      (∀ v vs rows, executeProcedure (Except.ok ((v :: vs) :: rows)) = v) :=
  ⟨fun _ => rfl, rfl, fun _ _ _ => rfl⟩

/-- One row of the Target Table Designer's edit grid (ID, Column Name, Data
Type, Default, Description — streamlit_app.py lines 672-694). `id = none`
models a pandas-NaN ID of a freshly added grid row. -/
structure EditedRow where
  id : Option Nat
  column_name : String
  data_type : String
  default : Option String
  description : Option String
deriving DecidableEq

/-- SQL text rendering of an optional designer value: `(None)`, pandas NaN
and the empty string all become NULL (streamlit_app.py lines 732, 744-745,
772, 779-780). -/
def designerSqlValue (o : Option String) : Option String :=
  match (if o = some "(None)" then none else o) with
  | some s => if s = "" then none else some s
  | none => none

/-- The designer save handler's new-column INSERT (streamlit_app.py lines
729-750): a grid row with no (or unknown) ID becomes a new `target_schemas`
row with `nullable` hard-coded to TRUE and `active` TRUE. -/
def newColumnRow (table : String) (e : EditedRow) (sid now : Nat) : SchemaRow :=
  { schema_id := sid
    table_name := table
    column_name := e.column_name.toUpper
    data_type := e.data_type
    nullable := true
    default_value := designerSqlValue e.default
    description := designerSqlValue e.description
    active := true
    created_timestamp := now
    updated_timestamp := now }

/-- The designer save handler's change detection over the four editable grid
columns (streamlit_app.py lines 756-769). -/
def rowChanged (origGrid e : EditedRow) : Bool :=
  decide (origGrid.column_name ≠ e.column_name) ||
  decide (origGrid.data_type ≠ e.data_type) ||
  decide (origGrid.default ≠ e.default) ||
  decide (origGrid.description ≠ e.description)

/-- The designer save handler's column-edit UPDATE (streamlit_app.py lines
774-784): it overwrites name, type, default, description and the update
timestamp, and unconditionally sets `nullable = TRUE`. -/
def applyColumnUpdate (r : SchemaRow) (e : EditedRow) (now : Nat) : SchemaRow :=
  { r with
      column_name := e.column_name.toUpper
      data_type := e.data_type
      nullable := true
      default_value := designerSqlValue e.default
      description := designerSqlValue e.description
      updated_timestamp := now }

/-- Editing an existing column through the designer grid: the UPDATE runs
only when some editable column changed (streamlit_app.py line 771). -/
def editExistingColumn (r : SchemaRow) (origGrid e : EditedRow) (now : Nat) :
    SchemaRow :=
  if rowChanged origGrid e then applyColumnUpdate r e now else r

/-- C9: every column written through the designer's save path is nullable:
a newly added grid row is inserted with nullable TRUE, and whenever an edit
touches an existing column the UPDATE sets nullable TRUE regardless of the
row's previous nullable value. -/
theorem designer_save_forces_nullable (table : String) (e origGrid : EditedRow)
    (sid now : Nat) (r : SchemaRow) :
    (newColumnRow table e sid now).nullable = true ∧
      (rowChanged origGrid e = true →
        (editExistingColumn r origGrid e now).nullable = true) := by
  refine ⟨rfl, fun hch => ?_⟩
  simp [editExistingColumn, hch, applyColumnUpdate]

/-- C9 witness: the theorem applied to a concrete edit that renames a column
on a previously non-nullable row. -/
theorem designer_save_forces_nullable_witness :
    (editExistingColumn
        { schema_id := 3, table_name := "CUSTOMER", column_name := "ID",
          data_type := "VARCHAR", nullable := false, default_value := none,
          description := none, active := true, created_timestamp := 0,
          updated_timestamp := 0 }
        { id := some 3, column_name := "ID", data_type := "VARCHAR",
          default := none, description := none }
        { id := some 3, column_name := "CUST_ID", data_type := "VARCHAR",
          default := none, description := none } 9).nullable = true :=
  (designer_save_forces_nullable "CUSTOMER"
    { id := some 3, column_name := "CUST_ID", data_type := "VARCHAR",
      default := none, description := none }
    { id := some 3, column_name := "ID", data_type := "VARCHAR",
      default := none, description := none } 0 9
    { schema_id := 3, table_name := "CUSTOMER", column_name := "ID",
      data_type := "VARCHAR", nullable := false, default_value := none,
      description := none, active := true, created_timestamp := 0,
      updated_timestamp := 0 }).2 (by decide)

/-- The four standard metadata columns automatically inserted by the
create-table form (streamlit_app.py lines 597-602), as
(name, type, nullable, default, description). -/
def standardColumns : List (String × String × Bool × Option String × String) :=
  [("SOURCE_FILE_NAME", "VARCHAR(500)", true, none,
      "Original source file name from Bronze layer"),
   ("INGESTION_TIMESTAMP", "TIMESTAMP_NTZ", false, some "CURRENT_TIMESTAMP()",
      "Timestamp when record was ingested"),
   ("CREATED_AT", "TIMESTAMP_NTZ", false, some "CURRENT_TIMESTAMP()",
      "Record creation timestamp in Silver layer"),
   ("UPDATED_AT", "TIMESTAMP_NTZ", false, some "CURRENT_TIMESTAMP()",
      "Record last update timestamp")]

/-- The create-table form submit handler (streamlit_app.py lines 570-631):
refused when the table name or first column name is blank; otherwise the
first column row is inserted, followed by the four standard metadata column
rows, all active, before `create_silver_table` is called. -/
def createdTableRows (tname fcol ftype : String) (fnullable : Bool)
    (fdefault fdesc : String) (baseId now : Nat) : List SchemaRow :=
  { schema_id := baseId
    table_name := tname.toUpper
    column_name := fcol.toUpper
    data_type := ftype
    nullable := fnullable
    default_value := designerSqlValue (some fdefault)
    description := if fdesc = "" then none else some fdesc
    active := true
    created_timestamp := now
    updated_timestamp := now } ::
  (standardColumns.enumFrom 1).map (fun p =>
    { schema_id := baseId + p.1
      table_name := tname.toUpper
      column_name := p.2.1
      data_type := p.2.2.1
      nullable := p.2.2.2.1
      default_value := p.2.2.2.2.1
      description := some p.2.2.2.2.2
      active := true
      created_timestamp := now
      updated_timestamp := now })

def createNewTableSubmit (db : List SchemaRow)
    (tname fcol ftype : String) (fnullable : Bool) (fdefault fdesc : String)
    (baseId now : Nat) : Option (List SchemaRow) :=
  if tname = "" ∨ fcol = "" then none
  else some (db ++ createdTableRows tname fcol ftype fnullable fdefault fdesc
    baseId now)

/-- C10: creating a new table inserts, beside the user's first column,
exactly the four standard metadata columns — SOURCE_FILE_NAME
(VARCHAR(500), nullable, no default), and INGESTION_TIMESTAMP, CREATED_AT,
UPDATED_AT (TIMESTAMP_NTZ, non-nullable, default CURRENT_TIMESTAMP()) — so a
freshly named table has exactly five active column entries before the
physical table is created. -/
theorem create_table_standard_columns (db : List SchemaRow)
    (tname fcol ftype : String) (fnullable : Bool) (fdefault fdesc : String)
    (baseId now : Nat) (h1 : tname ≠ "") (h2 : fcol ≠ "")
    (hfresh : db.filter
      (fun r => decide (r.table_name = tname.toUpper) && r.active) = []) :
    ∃ db', createNewTableSubmit db tname fcol ftype fnullable fdefault fdesc
        baseId now = some db' ∧
      (db'.filter (fun r => decide (r.table_name = tname.toUpper) && r.active)
        ).map (fun r =>
          (r.column_name, r.data_type, r.nullable, r.default_value))
        = [(fcol.toUpper, ftype, fnullable, designerSqlValue (some fdefault)),
           ("SOURCE_FILE_NAME", "VARCHAR(500)", true, none),
           ("INGESTION_TIMESTAMP", "TIMESTAMP_NTZ", false,
              some "CURRENT_TIMESTAMP()"),
           ("CREATED_AT", "TIMESTAMP_NTZ", false, some "CURRENT_TIMESTAMP()"),
           ("UPDATED_AT", "TIMESTAMP_NTZ", false,
              some "CURRENT_TIMESTAMP()")] := by
  refine ⟨db ++ createdTableRows tname fcol ftype fnullable fdefault fdesc
    baseId now, ?_, ?_⟩
  · unfold createNewTableSubmit
    rw [if_neg (by simp [h1, h2])]
  · rw [List.filter_append, hfresh]
    simp [createdTableRows, standardColumns, List.enumFrom]

/-- C10 witness: creating table CUSTOMER with first column `id` on an empty
store yields exactly the five expected active column entries. -/
theorem create_table_standard_columns_witness :
    ∃ db', createNewTableSubmit [] "CUSTOMER" "id" "VARCHAR" true "(None)" ""
        0 0 = some db' ∧
      (db'.filter (fun r => decide (r.table_name = "CUSTOMER".toUpper)
          && r.active)).map (fun r =>
          (r.column_name, r.data_type, r.nullable, r.default_value))
        = [("id".toUpper, "VARCHAR", true, designerSqlValue (some "(None)")),
           ("SOURCE_FILE_NAME", "VARCHAR(500)", true, none),
           ("INGESTION_TIMESTAMP", "TIMESTAMP_NTZ", false,
              some "CURRENT_TIMESTAMP()"),
           ("CREATED_AT", "TIMESTAMP_NTZ", false, some "CURRENT_TIMESTAMP()"),
           ("UPDATED_AT", "TIMESTAMP_NTZ", false,
              some "CURRENT_TIMESTAMP()")] :=
  create_table_standard_columns [] "CUSTOMER" "id" "VARCHAR" true "(None)" ""
    0 0 (by decide) (by decide) (by decide)
